import Mathlib

/-!
Verification of the STAC tiled-assets core of the mapchete repository
(`mapchete/stac/tiled_assets.py`).

The file embeds the data model and the operations of `tiled_assets.py`
shallowly: pydantic models become structures, machine floats become exact
rationals (`ℚ`), fallible code returns `Except`, and the single mutator
(`STACTA.extend`) is explicit state passing.  Collaborators of the module
that are not part of the sampled sources (the tile-pyramid indexing
mathematics of `mapchete.tile.BufferedTilePyramid`, `mapchete.bounds.Bounds`,
`mapchete.zoom_levels.ZoomLevels`, and the reprojection utility) are
modelled from the specification, as marked in their doc comments.
-/

namespace Mapchete

/-- Modelled from the spec: an opaque CRS handle, resolvable to an
(authority, code) pair.  The claims under study only exercise resolvable
CRSes, so the embedding keeps the authority pair directly. -/
structure CRS where
  authority : String
  code : String
deriving DecidableEq, Repr

def epsg4326 : CRS := { authority := "EPSG", code := "4326" }

def epsg3857 : CRS := { authority := "EPSG", code := "3857" }

/-- `crs_to_authority`: resolve a CRS to its (authority, code) pair. -/
def crs_to_authority (crs : CRS) : String × String :=
  (crs.authority, crs.code)

/-- `crs_to_uri`: `http://www.opengis.net/def/crs/{authority}/{version}/{code}`. -/
def crs_to_uri (crs : CRS) (version : Nat) : String :=
  let (authority, code) := crs_to_authority crs
  "http://www.opengis.net/def/crs/" ++ authority ++ "/" ++ toString version ++ "/" ++ code

/-- `crs_to_urn`: `urn:ogc:def:crs:{authority}::{code}`. -/
def crs_to_urn (crs : CRS) : String :=
  let (authority, code) := crs_to_authority crs
  "urn:ogc:def:crs:" ++ authority ++ "::" ++ code

/-- Modelled from the spec: `mapchete.bounds.Bounds`, a
`(left, bottom, right, top)` rectangle with an optional CRS. -/
structure Bounds where
  left : ℚ
  bottom : ℚ
  right : ℚ
  top : ℚ
  crs : Option CRS := none
deriving DecidableEq, Repr

/-- Modelled from the spec: `Bounds.union` computes the enclosing
rectangle of two bounds. -/
def Bounds.union (a b : Bounds) : Bounds :=
  { left := min a.left b.left
    bottom := min a.bottom b.bottom
    right := max a.right b.right
    top := max a.top b.top
    crs := a.crs }

/-- A plain geometry rectangle, as returned by `shapely`-style `.bounds`. -/
structure Rect where
  left : ℚ
  bottom : ℚ
  right : ℚ
  top : ℚ
deriving DecidableEq, Repr

/-- Modelled from the spec: the external reprojection utility
`reproject_geometry(geometry, src_crs, dst_crs)`; the source CRS always
travels with the bounds, so the embedding passes a `Bounds` and the
destination CRS and receives the reprojected rectangle. -/
def Reproject : Type := Bounds → CRS → Rect

/-- Modelled from the spec: a tile-pyramid grid (the `grid` attribute of
`mapchete.tile.BufferedTilePyramid`): a grid type tag, the zoom-0 matrix
shape, overall bounds and a CRS.  The geodetic grid has two zoom-0
columns and one row over (-180, -90, 180, 90). -/
structure Grid where
  type : String
  shape_width : ℕ
  shape_height : ℕ
  left : ℚ
  bottom : ℚ
  right : ℚ
  top : ℚ
  crs : CRS
deriving DecidableEq, Repr

def geodeticGrid : Grid :=
  { type := "geodetic", shape_width := 2, shape_height := 1
    left := -180, bottom := -90, right := 180, top := 90, crs := epsg4326 }

def mercatorGrid : Grid :=
  { type := "mercator", shape_width := 1, shape_height := 1
    left := -(20037508342789244 : ℚ) / 1000000000, bottom := -(20037508342789244 : ℚ) / 1000000000
    right := (20037508342789244 : ℚ) / 1000000000, top := (20037508342789244 : ℚ) / 1000000000
    crs := epsg3857 }

/-- Modelled from the spec: `mapchete.tile.BufferedTilePyramid` — grid
type, bounds, CRS, a positive integer metatiling and per-zoom indexing
functions; the default tile size is 256 pixels and the default
pixelbuffer is 0. -/
structure BufferedTilePyramid where
  grid : Grid
  metatiling : ℕ := 1
  tile_size : ℕ := 256
  pixelbuffer : ℕ := 0
deriving DecidableEq, Repr

/-- Modelled from the spec: number of tile columns at a zoom level.  The
base tile count per axis doubles per zoom step and metatiling `N` groups
`N x N` base tiles into one served tile, so the matrix width is the
ceiling of `shape_width * 2 ^ zoom / metatiling`, floored at 1. -/
def BufferedTilePyramid.matrix_width (tp : BufferedTilePyramid) (zoom : ℕ) : ℕ :=
  max 1 ((tp.grid.shape_width * 2 ^ zoom + tp.metatiling - 1) / tp.metatiling)

/-- Modelled from the spec: number of tile rows at a zoom level. -/
def BufferedTilePyramid.matrix_height (tp : BufferedTilePyramid) (zoom : ℕ) : ℕ :=
  max 1 ((tp.grid.shape_height * 2 ^ zoom + tp.metatiling - 1) / tp.metatiling)

/-- Modelled from the spec: width in pixels of a (meta)tile at a zoom
level; a metatile of `N x N` base tiles is `tile_size * N` pixels wide,
capped at the total pixel width of the matrix. -/
def BufferedTilePyramid.tile_width (tp : BufferedTilePyramid) (zoom : ℕ) : ℕ :=
  min (tp.tile_size * tp.metatiling) (2 ^ zoom * tp.tile_size * tp.grid.shape_width)

/-- Modelled from the spec: height in pixels of a (meta)tile at a zoom level. -/
def BufferedTilePyramid.tile_height (tp : BufferedTilePyramid) (zoom : ℕ) : ℕ :=
  min (tp.tile_size * tp.metatiling) (2 ^ zoom * tp.tile_size * tp.grid.shape_height)

/-- Modelled from the spec: ground size of one pixel along the x axis at
a zoom level. -/
def BufferedTilePyramid.pixel_x_size (tp : BufferedTilePyramid) (zoom : ℕ) : ℚ :=
  (tp.grid.right - tp.grid.left) / (tp.grid.shape_width * 2 ^ zoom * tp.tile_size)

/-- `TILED_ASSETS_VERSION`. -/
def TILED_ASSETS_VERSION : String := "v1.0.0"

/-- `EO_VERSION`. -/
def EO_VERSION : String := "v1.1.0"

/-- `OUT_PIXEL_SIZE = 0.28e-3`, the OGC-assumed screen pixel size in meters. -/
def OUT_PIXEL_SIZE : ℚ := 0.28e-3

/-- `UNIT_TO_METER = {"mercator": 1, "geodetic": 111319.4907932732}`. -/
def UNIT_TO_METER : List (String × ℚ) :=
  [("mercator", 1), ("geodetic", 111319.4907932732)]

/-- `_scale(grid, pixel_x_size, default_unit_to_meter=1)`:
`UNIT_TO_METER.get(grid, default) * pixel_x_size / OUT_PIXEL_SIZE`. -/
def _scale (grid : String) (pixel_x_size : ℚ) (default_unit_to_meter : ℚ) : ℚ :=
  ((UNIT_TO_METER.lookup grid).getD default_unit_to_meter) * pixel_x_size / OUT_PIXEL_SIZE

/-- `BoundingBox` (pydantic model): a CRS URI plus the two corner
coordinate pairs. -/
structure BoundingBox where
  crs : String
  lowerCorner : List ℚ
  upperCorner : List ℚ
deriving DecidableEq, Repr

/-- `BoundingBox.from_bounds`: fails when the bounds carry no CRS,
otherwise sets `upperCorner = [left, top]` and
`lowerCorner = [right, bottom]`. -/
def BoundingBox.from_bounds (bounds : Bounds) : Except String BoundingBox :=
  match bounds.crs with
  | none => .error "bounds.crs must be set"
  | some c =>
    .ok { crs := crs_to_uri c 0
          upperCorner := [bounds.left, bounds.top]
          lowerCorner := [bounds.right, bounds.bottom] }

/-- `TileMatrix` (pydantic model).  The source stores the zoom level as
its decimal string in `identifier` and parses it back with `int()` in
`to_tile_pyramid`; since the string round-trip is exact, the embedding
keeps the numeric zoom value in `identifier` directly. -/
structure TileMatrix where
  identifier : ℕ
  scaleDenominator : ℚ
  topLeftCorner : List ℚ
  tileWidth : ℕ
  tileHeight : ℕ
  matrixWidth : ℕ
  matrixHeight : ℕ
deriving DecidableEq, Repr

/-- `TileMatrixSet` (pydantic model). -/
structure TileMatrixSet where
  identifier : String
  supportedCRS : String
  tileMatrix : List TileMatrix
  boundingBox : BoundingBox
  title : Option String := none
  wellKnownScaleSet : Option String := none
  url : Option String := none
deriving DecidableEq, Repr

/-- One `TileMatrix` entry of `TileMatrixSet.from_tile_pyramid`: scale via
`_scale`, top-left corner and tile/matrix dimensions from the pyramid's
own per-zoom functions. -/
def tile_matrix_entry (tp : BufferedTilePyramid) (grid : String) (zoom : ℕ) : TileMatrix :=
  { identifier := zoom
    scaleDenominator := _scale grid (tp.pixel_x_size zoom) 1
    topLeftCorner := [tp.grid.left, tp.grid.top]
    tileWidth := tp.tile_width zoom
    tileHeight := tp.tile_height zoom
    matrixWidth := tp.matrix_width zoom
    matrixHeight := tp.matrix_height zoom }

/-- The bounding box built by `from_tile_pyramid` via
`BoundingBox.from_bounds(Bounds.from_inp(tile_pyramid.bounds, crs=tile_pyramid.crs))`;
the CRS is always attached there, so the `Except` of `from_bounds`
cannot fail on this path and the embedding constructs the result directly. -/
def pyramid_bounding_box (tp : BufferedTilePyramid) : BoundingBox :=
  { crs := crs_to_uri tp.grid.crs 0
    upperCorner := [tp.grid.left, tp.grid.top]
    lowerCorner := [tp.grid.right, tp.grid.bottom] }

/-- `TileMatrixSet.from_tile_pyramid`: dispatch on the pyramid's grid
type; geodetic and mercator get their well-known identifiers, CRS URIs
and well-known-scale-set URLs, anything else becomes `custom` with a CRS
URN and no well-known scale set; one `TileMatrix` per requested zoom. -/
def TileMatrixSet.from_tile_pyramid (tile_pyramid : BufferedTilePyramid)
    (zoom_levels : List ℕ) : TileMatrixSet :=
  if tile_pyramid.grid.type = "geodetic" then
    { identifier := "WorldCRS84Quad"
      title := some "CRS84 for the World"
      supportedCRS := "http://www.opengis.net/def/crs/OGC/1.3/CRS84"
      url := some "http://schemas.opengis.net/tms/1.0/json/examples/WorldCRS84Quad.json"
      wellKnownScaleSet := some "http://www.opengis.net/def/wkss/OGC/1.0/GoogleCRS84Quad"
      boundingBox := pyramid_bounding_box tile_pyramid
      tileMatrix := zoom_levels.map (tile_matrix_entry tile_pyramid "geodetic") }
  else if tile_pyramid.grid.type = "mercator" then
    { identifier := "WebMercatorQuad"
      title := some "Google Maps Compatible for the World"
      supportedCRS := "http://www.opengis.net/def/crs/EPSG/0/3857"
      url := some "http://schemas.opengis.net/tms/1.0/json/examples/WebMercatorQuad.json"
      wellKnownScaleSet := some "http://www.opengis.net/def/wkss/OGC/1.0/GoogleMapsCompatible"
      boundingBox := pyramid_bounding_box tile_pyramid
      tileMatrix := zoom_levels.map (tile_matrix_entry tile_pyramid "mercator") }
  else
    { identifier := "custom"
      supportedCRS := crs_to_urn tile_pyramid.grid.crs
      boundingBox := pyramid_bounding_box tile_pyramid
      tileMatrix := zoom_levels.map (tile_matrix_entry tile_pyramid tile_pyramid.grid.type) }

/-- The well-known-scale-set to grid-type mapping at the head of
`to_tile_pyramid`. -/
def wkss_grid : Option String → Option Grid
  | some s =>
    if s = "http://www.opengis.net/def/wkss/OGC/1.0/GoogleCRS84Quad" then some geodeticGrid
    else if s = "http://www.opengis.net/def/wkss/OGC/1.0/GoogleMapsCompatible" then some mercatorGrid
    else none
  | none => none

/-- `metatiling_opts = [2**x for x in range(10)]`. -/
def metatiling_opts : List ℕ := (List.range 10).map fun x => 2 ^ x

/-- The inner loop of `to_tile_pyramid`: a metatiling candidate matches
when every `TileMatrix` entry's matrix and tile dimensions equal the
trial pyramid's values at that entry's zoom. -/
def candidate_matches (tms : TileMatrixSet) (grid : Grid) (metatiling : ℕ) : Bool :=
  tms.tileMatrix.all fun tile_matrix =>
    let tp : BufferedTilePyramid := { grid := grid, metatiling := metatiling }
    tile_matrix.matrixWidth == tp.matrix_width tile_matrix.identifier &&
    tile_matrix.matrixHeight == tp.matrix_height tile_matrix.identifier &&
    tile_matrix.tileWidth == tp.tile_width tile_matrix.identifier &&
    tile_matrix.tileHeight == tp.tile_height tile_matrix.identifier

/-- `TileMatrixSet.to_tile_pyramid`: map the well-known scale set back to
a grid type (error on anything unknown), collect all matching metatiling
candidates, error when none matches, and otherwise return the smallest
match (the source's `sorted(...)[0]`) together with the ambiguity-warning
flag that is set exactly when several candidates matched. -/
def TileMatrixSet.to_tile_pyramid (tms : TileMatrixSet) :
    Except String (BufferedTilePyramid × Bool) :=
  match wkss_grid tms.wellKnownScaleSet with
  | none => .error "cannot create tile pyramid from unknown scale set"
  | some grid =>
    match metatiling_opts.filter (candidate_matches tms grid) with
    | [] => .error "cannot determine metatiling setting"
    | m :: rest => .ok ({ grid := grid, metatiling := rest.foldl Nat.min m }, !rest.isEmpty)

/-- `TileMatrixSet.to_zoom_levels`: the zoom parsed from each entry's identifier. -/
def TileMatrixSet.to_zoom_levels (tms : TileMatrixSet) : List ℕ :=
  tms.tileMatrix.map fun tile_matrix => tile_matrix.identifier

/-- Python dict lookup on an association list (first binding wins, as in a dict). -/
def dict_lookup (k : String) : List (String × String) → Option String
  | [] => none
  | (k', v) :: rest => if k' = k then some v else dict_lookup k rest

/-- Removal of a key from an association list (dict keys are unique, so
removing the first binding models `del`/`pop`). -/
def dict_remove (k : String) : List (String × String) → List (String × String)
  | [] => []
  | (k', v) :: rest => if k' = k then rest else (k', v) :: dict_remove k rest

/-- Python `d[k] = v`: replace the value in place when the key exists,
append the binding otherwise (dicts preserve insertion order). -/
def dict_insert : List (String × String) → String → String → List (String × String)
  | [], k, v => [(k, v)]
  | (k', v') :: rest, k, v =>
    if k' = k then (k, v) :: rest else (k', v') :: dict_insert rest k v

/-- Python `d.pop(k)`: the value plus the shrunken dict, or a `KeyError`. -/
def dict_pop (k : String) (d : List (String × String)) :
    Except String (String × List (String × String)) :=
  match dict_lookup k d with
  | none => .error ("KeyError: " ++ k)
  | some v => .ok (v, dict_remove k d)

/-- Python `a or b` on an optional string: the left value when it is
present and truthy (non-empty), the right value otherwise. -/
def py_or_string (a : Option String) (b : String) : String :=
  match a with
  | some v => if v = "" then b else v
  | none => b

/-- Modelled from the spec: `ZoomLevels.union` — set union without
duplicates, monotonic and idempotent on already-covered levels. -/
def zoom_levels_union (a b : List ℕ) : List ℕ :=
  a ++ b.filter fun z => !a.contains z

/-- The free-form `item_metadata` mapping, restricted to the keys the
source reads: `properties`, `links` and `eo:bands`. -/
structure ItemMetadata where
  properties : List (String × String) := []
  links : List String := []
  eo_bands : Option String := none
deriving DecidableEq, Repr

/-- `get_stac_version()` of pystac, an external constant. -/
def get_stac_version : String := "1.0.0"

/-- `Asset` of pystac: the computed href plus the remaining keyword
arguments (which include `media_type`). -/
structure Asset where
  href : String
  kwargs : List (String × String)
deriving DecidableEq, Repr

/-- `TiledAsset` (pydantic model).  The `tile_matrix_link` dict is kept
opaque as an association list. -/
structure TiledAsset where
  name : String
  tile_matrix_set : TileMatrixSet
  tile_matrix_link : List (String × String) := []
  asset_kwargs : List (String × String) := []
deriving DecidableEq, Repr

/-- `TiledAsset.to_asset`: pops `type` out of the stored `asset_kwargs`
(re-inserting it as `media_type`), pops `href`, and builds the Asset with
the STACTA href scheme.  The pops mutate `self.asset_kwargs` in place, so
the embedding returns the updated `TiledAsset` alongside the `Asset`; a
missing key is a `KeyError`. -/
def TiledAsset.to_asset (ta : TiledAsset) (item_href : String) (asset_name : Option String) :
    Except String (Asset × TiledAsset) :=
  match dict_pop "type" ta.asset_kwargs with
  | .error e => .error e
  | .ok (media_type, d1) =>
    let d2 := dict_insert d1 "media_type" media_type
    match dict_pop "href" d2 with
    | .error e => .error e
    | .ok (_, d3) =>
      .ok ({ href := "STACTA:" ++ item_href ++ ":" ++ (asset_name.getD ta.name) ++ ":"
                      ++ ta.tile_matrix_set.identifier
             kwargs := d3 },
           { ta with asset_kwargs := d3 })

/-- `STACTA` (dataclass).  Field order and defaults follow the source;
dataclass equality is structural equality of these stored fields. -/
structure STACTA where
  id : String
  tile_pyramid : BufferedTilePyramid
  zoom_levels : List ℕ
  stac_version : String := get_stac_version
  assets : List (String × String) := []
  bounds : Option Bounds := none
  item_metadata : ItemMetadata := {}
  asset_template : String := "\x7bzoom\x7d/\x7brow\x7d/\x7bcol\x7d.tif"
  mime_type : String := "image/tiff; application=geotiff"
  asset_template_name : String := "bands"
deriving DecidableEq, Repr

/-- `STACTA._stacta_bounds`: effective bounds (override bounds if set,
else pyramid bounds; CRS from the override if set, else from the
pyramid), reprojected into the pyramid CRS and clamped componentwise so
they never extend beyond the pyramid's own bounds on any side. -/
def STACTA.stacta_bounds (R : Reproject) (s : STACTA) : Bounds :=
  let base : Bounds :=
    match s.bounds with
    | some b =>
      { b with crs := match b.crs with
                      | some c => some c
                      | none => some s.tile_pyramid.grid.crs }
    | none =>
      { left := s.tile_pyramid.grid.left, bottom := s.tile_pyramid.grid.bottom
        right := s.tile_pyramid.grid.right, top := s.tile_pyramid.grid.top
        crs := some s.tile_pyramid.grid.crs }
  let tp_bbox := R base s.tile_pyramid.grid.crs
  { left := if tp_bbox.left < s.tile_pyramid.grid.left then s.tile_pyramid.grid.left
            else tp_bbox.left
    bottom := if tp_bbox.bottom < s.tile_pyramid.grid.bottom then s.tile_pyramid.grid.bottom
              else tp_bbox.bottom
    right := if tp_bbox.right > s.tile_pyramid.grid.right then s.tile_pyramid.grid.right
             else tp_bbox.right
    top := if tp_bbox.top > s.tile_pyramid.grid.top then s.tile_pyramid.grid.top
           else tp_bbox.top
    crs := some s.tile_pyramid.grid.crs }

/-- Modelled from the spec: `Bounds.latlon_geometry` reprojects bounds
to geographic (EPSG:4326) coordinates. -/
def Bounds.latlon_geometry (R : Reproject) (b : Bounds) : Rect :=
  R b epsg4326

/-- `STACTA.geometry`: the latlon geometry of the clamped effective bounds. -/
def STACTA.geometry (R : Reproject) (s : STACTA) : Rect :=
  (s.stacta_bounds R).latlon_geometry R

/-- `STACTA.bbox`: the latlon geometry's bounds as a 4-list. -/
def STACTA.bbox (R : Reproject) (s : STACTA) : List ℚ :=
  let r := (s.stacta_bounds R).latlon_geometry R
  [r.left, r.bottom, r.right, r.top]

/-- `STACTA.stac_extensions`: always the tiled-assets schema; the EO
schema is appended when `item_metadata` has an `eo:bands` key. -/
def STACTA.stac_extensions (s : STACTA) : List String :=
  let base := ["https://stac-extensions.github.io/tiled-assets/" ++ TILED_ASSETS_VERSION
                ++ "/schema.json"]
  if s.item_metadata.eo_bands.isSome then
    base ++ ["https://stac-extensions.github.io/eo/" ++ EO_VERSION ++ "/schema.json"]
  else base

/-- `STACTA._tile_matrix_set`. -/
def STACTA.tile_matrix_set (s : STACTA) : TileMatrixSet :=
  TileMatrixSet.from_tile_pyramid s.tile_pyramid s.zoom_levels

/-- The two edge policies used by `tile_from_xy` here: `rb` resolves a
coordinate that falls exactly on a tile boundary to the tile on the
right/bottom of it, `lt` to the tile on the left/top. -/
inductive EdgePolicy where
  | rb
  | lt
deriving DecidableEq, Repr

/-- Modelled from the spec: ground width of one (meta)tile at a zoom level. -/
def BufferedTilePyramid.tile_x_span (tp : BufferedTilePyramid) (zoom : ℕ) : ℚ :=
  tp.pixel_x_size zoom * tp.tile_width zoom

/-- Modelled from the spec: ground height of one (meta)tile at a zoom
level (pixels are square). -/
def BufferedTilePyramid.tile_y_span (tp : BufferedTilePyramid) (zoom : ℕ) : ℚ :=
  tp.pixel_x_size zoom * tp.tile_height zoom

/-- Modelled from the spec: the column of `tile_from_xy(x, _, zoom, on_edge_use)`;
columns are counted from the pyramid's left edge, and on an exact tile
boundary `rb` takes the tile starting there while `lt` takes the
preceding one. -/
def BufferedTilePyramid.tile_col_from_x (tp : BufferedTilePyramid) (x : ℚ) (zoom : ℕ)
    (edge : EdgePolicy) : ℤ :=
  let q := (x - tp.grid.left) / tp.tile_x_span zoom
  match edge with
  | .rb => ⌊q⌋
  | .lt => ⌈q⌉ - 1

/-- Modelled from the spec: the row of `tile_from_xy(_, y, zoom, on_edge_use)`;
rows are counted downwards from the pyramid's top edge. -/
def BufferedTilePyramid.tile_row_from_y (tp : BufferedTilePyramid) (y : ℚ) (zoom : ℕ)
    (edge : EdgePolicy) : ℤ :=
  let q := (tp.grid.top - y) / tp.tile_y_span zoom
  match edge with
  | .rb => ⌊q⌋
  | .lt => ⌈q⌉ - 1

/-- The per-zoom tile-index limits of `tiles:tile_matrix_links`. -/
structure TileLimits where
  min_tile_col : ℤ
  max_tile_col : ℤ
  min_tile_row : ℤ
  max_tile_row : ℤ
deriving DecidableEq, Repr

/-- The value of `tiles:tile_matrix_links` for the item's matrix set. -/
structure TileMatrixLinks where
  url : String
  limits : List (ℕ × TileLimits)
deriving DecidableEq, Repr

/-- `STACTA._tile_matrix_links`: reproject the effective bounds into the
pyramid CRS, clamp once more to the pyramid bounds, and resolve per zoom
the inclusive tile rectangle: `(left, top)` with edge policy `rb` gives
the minimum column/row, `(right, bottom)` with `lt` the maximum. -/
def STACTA.tile_matrix_links (R : Reproject) (s : STACTA) : TileMatrixLinks :=
  let tp := s.tile_pyramid
  let tp_bbox := R (s.stacta_bounds R) tp.grid.crs
  let left := if tp_bbox.left < tp.grid.left then tp.grid.left else tp_bbox.left
  let bottom := if tp_bbox.bottom < tp.grid.bottom then tp.grid.bottom else tp_bbox.bottom
  let right := if tp_bbox.right > tp.grid.right then tp.grid.right else tp_bbox.right
  let top := if tp_bbox.top > tp.grid.top then tp.grid.top else tp_bbox.top
  { url := "#" ++ s.tile_matrix_set.identifier
    limits := s.zoom_levels.map fun zoom =>
      (zoom,
        { min_tile_col := tp.tile_col_from_x left zoom .rb
          max_tile_col := tp.tile_col_from_x right zoom .lt
          min_tile_row := tp.tile_row_from_y top zoom .rb
          max_tile_row := tp.tile_row_from_y bottom zoom .lt }) }

/-- The computed `properties` mapping: the caller-supplied properties
shallow-merged (Python dict-literal semantics) with the injected
`datetime` and `collection` entries, plus the two `tiles:` maps keyed by
the tile-matrix-set identifier and the optional `eo:bands` passthrough. -/
structure PropertiesDoc where
  base : List (String × String)
  tiles_tile_matrix_links : String × TileMatrixLinks
  tiles_tile_matrix_sets : String × TileMatrixSet
  eo_bands : Option String
deriving DecidableEq, Repr

/-- `STACTA.properties`: `datetime` is `start_datetime`, else
`end_datetime`, else the current UTC timestamp (`now`, passed explicitly
since the embedding is pure); `collection` is the item id. -/
def STACTA.properties (R : Reproject) (now : String) (s : STACTA) : PropertiesDoc :=
  let dt := py_or_string (dict_lookup "start_datetime" s.item_metadata.properties)
              (py_or_string (dict_lookup "end_datetime" s.item_metadata.properties) now)
  { base := dict_insert (dict_insert s.item_metadata.properties "datetime" dt) "collection" s.id
    tiles_tile_matrix_links := (s.tile_matrix_set.identifier, s.tile_matrix_links R)
    tiles_tile_matrix_sets := (s.tile_matrix_set.identifier, s.tile_matrix_set)
    eo_bands := s.item_metadata.eo_bands }

/-- One entry of the `asset_templates` mapping. -/
structure AssetTemplateDoc where
  href : String
  type : String
  eo_bands : Option String := none
deriving DecidableEq, Repr

/-- `STACTA.asset_templates`: one entry under the configured template
name, with the stored template string, the configured media type and the
verbatim `eo:bands` when present. -/
def STACTA.asset_templates (s : STACTA) : List (String × AssetTemplateDoc) :=
  [(s.asset_template_name,
    { href := s.asset_template, type := s.mime_type, eo_bands := s.item_metadata.eo_bands })]

/-- `STACTA.links`: passthrough of `item_metadata.links`. -/
def STACTA.links (s : STACTA) : List String :=
  s.item_metadata.links

/-- The canonical nested document of `STACTA.to_item_dict`. -/
structure ItemDict where
  type : String
  stac_version : String
  stac_extensions : List String
  id : String
  geometry : Rect
  bbox : List ℚ
  properties : PropertiesDoc
  links : List String
  assets : List (String × String)
  asset_templates : List (String × AssetTemplateDoc)
deriving DecidableEq, Repr

/-- `STACTA.to_item_dict`. -/
def STACTA.to_item_dict (R : Reproject) (now : String) (s : STACTA) : ItemDict :=
  { type := "Feature"
    stac_version := s.stac_version
    stac_extensions := s.stac_extensions
    id := s.id
    geometry := s.geometry R
    bbox := s.bbox R
    properties := s.properties R now
    links := s.links
    assets := s.assets
    asset_templates := s.asset_templates }

/-- `STACTA.extend(zoom_levels?, bounds?)`: union new zoom levels into
the existing set and union bounds into the existing bounds (adopting the
new bounds directly when none were set); the Python truthiness guards
skip empty arguments. -/
def STACTA.extend (s : STACTA) (zoom_levels : Option (List ℕ)) (bounds : Option Bounds) :
    STACTA :=
  let s1 :=
    match zoom_levels with
    | none => s
    | some zl =>
      if zl.isEmpty then s
      else { s with zoom_levels := zoom_levels_union s.zoom_levels zl }
  match bounds with
  | none => s1
  | some b =>
    match s1.bounds with
    | none => { s1 with bounds := some b }
    | some old => { s1 with bounds := some (old.union b) }

/-- `STACTA.from_tile_pyramid`: the fresh constructor; placeholder names
in the asset template are rewritten to the tiled-assets spellings. -/
def STACTA.from_tile_pyramid (id : String) (tile_pyramid : BufferedTilePyramid)
    (zoom_levels : List ℕ) (asset_template : String) (bounds : Option Bounds)
    (item_metadata : ItemMetadata) (mime_type : String) (asset_template_name : String) :
    STACTA :=
  { id := id
    tile_pyramid := tile_pyramid
    zoom_levels := zoom_levels
    asset_template :=
      (((asset_template.replace "\x7bzoom\x7d" "\x7bTileMatrix\x7d").replace
          "\x7brow\x7d" "\x7bTileRow\x7d").replace
        "\x7bcol\x7d" "\x7bTileCol\x7d").replace "\x7bextension\x7d" "tif"
    bounds := bounds
    item_metadata := item_metadata
    mime_type := mime_type
    asset_template_name := asset_template_name }

/-- The Python exception kinds `STACTA.from_item` can surface. -/
inductive PyError where
  | valueError : String → PyError
  | attributeError : String → PyError
deriving DecidableEq, Repr

/-- A persisted STAC item document as `STACTA.from_item` consumes it:
`tiles:tile_matrix_sets` is `none` when the key is absent from
`properties` (the source then calls `.values()` on the `[]` default and
crashes), `bbox` is pystac's parsed optional bbox, and `asset_templates`
defaults to an empty mapping when absent. -/
structure ParsedItem where
  id : String
  tile_matrix_sets : Option (List (String × TileMatrixSet))
  bbox : Option Bounds
  asset_templates : List (String × AssetTemplateDoc)
  item_metadata : ItemMetadata := {}
  assets : List (String × String) := []
deriving DecidableEq, Repr

/-- `STACTA.from_item`: take the first `tiles:tile_matrix_sets` entry,
invert it to a pyramid and zoom levels, require a bbox and at least one
asset-template entry, and build the item from those first entries.  A
document whose `properties` lack the `tiles:tile_matrix_sets` key raises
`AttributeError` (the `.get(..., [])` default is a list, which has no
`.values()`); an empty mapping reaches the `for`/`else` and raises
`ValueError`. -/
def STACTA.from_item (item : ParsedItem) : Except PyError STACTA :=
  match item.tile_matrix_sets with
  | none => .error (.attributeError "list object has no attribute values")
  | some [] => .error (.valueError "no tiles:tile_matrix_sets found in STAC item")
  | some ((_, tms) :: _) =>
    match tms.to_tile_pyramid with
    | .error e => .error (.valueError e)
    | .ok (tile_pyramid, _) =>
      match item.bbox with
      | none => .error (.valueError "STAC Item has no bbox")
      | some bb =>
        match item.asset_templates with
        | [] => .error (.valueError "no asset_templates found in STAC item")
        | (asset_template_name, asset_values) :: _ =>
          .ok { id := item.id
                tile_pyramid := tile_pyramid
                zoom_levels := tms.to_zoom_levels
                stac_version := get_stac_version
                assets := item.assets
                bounds := some bb
                item_metadata := item.item_metadata
                asset_template := asset_values.href
                mime_type := asset_values.type
                asset_template_name := asset_template_name }

/-! Helper lemmas for association-list dictionaries. -/

lemma dict_lookup_none_of_not_mem (k : String) (d : List (String × String))
    (h : k ∉ d.map Prod.fst) : dict_lookup k d = none := by
  induction d with
  | nil => rfl
  | cons hd tl ih =>
    obtain ⟨a, v⟩ := hd
    simp only [List.map_cons, List.mem_cons, not_or] at h
    simp only [dict_lookup]
    rw [if_neg (fun he : a = k => h.1 he.symm)]
    exact ih h.2

lemma dict_lookup_remove_self (k : String) (d : List (String × String))
    (h : (d.map Prod.fst).Nodup) : dict_lookup k (dict_remove k d) = none := by
  induction d with
  | nil => rfl
  | cons hd tl ih =>
    obtain ⟨a, v⟩ := hd
    simp only [List.map_cons, List.nodup_cons] at h
    by_cases he : a = k
    · simp only [dict_remove]
      rw [if_pos he]
      exact dict_lookup_none_of_not_mem k tl (he ▸ h.1)
    · simp only [dict_remove, dict_lookup]
      rw [if_neg he, dict_lookup, if_neg he]
      exact ih h.2

lemma dict_lookup_remove_ne (k k' : String) (hne : k ≠ k') (d : List (String × String)) :
    dict_lookup k (dict_remove k' d) = dict_lookup k d := by
  induction d with
  | nil => rfl
  | cons hd tl ih =>
    obtain ⟨a, v⟩ := hd
    by_cases he : a = k'
    · have hak : ¬(a = k) := fun h => hne (h ▸ he)
      simp only [dict_remove]
      rw [if_pos he, dict_lookup, if_neg hak]
    · simp only [dict_remove]
      rw [if_neg he, dict_lookup, dict_lookup]
      by_cases hak : a = k
      · rw [if_pos hak, if_pos hak]
      · rw [if_neg hak, if_neg hak]
        exact ih

lemma dict_lookup_insert_ne (k k' : String) (hne : k ≠ k') (d : List (String × String))
    (v : String) : dict_lookup k (dict_insert d k' v) = dict_lookup k d := by
  induction d with
  | nil =>
    simp only [dict_insert, dict_lookup]
    rw [if_neg (fun h : k' = k => hne h.symm)]
  | cons hd tl ih =>
    obtain ⟨a, w⟩ := hd
    by_cases he : a = k'
    · have hak : ¬(a = k) := fun h => hne (h ▸ he)
      have hkk : ¬(k' = k) := fun h => hne h.symm
      simp only [dict_insert]
      rw [if_pos he, dict_lookup, dict_lookup, if_neg hak, if_neg hkk]
    · simp only [dict_insert]
      rw [if_neg he, dict_lookup, dict_lookup]
      by_cases hak : a = k
      · rw [if_pos hak, if_pos hak]
      · rw [if_neg hak, if_neg hak]
        exact ih

/-- C8: for every grid type and positive pixel size, the scale
denominator of the source's `_scale` equals
`unit_to_meter(grid) * pixel_size / 0.00028`, where `unit_to_meter` is 1
for `"mercator"`, `111319.4907932732` for `"geodetic"` and 1 for any
other grid type; `unit_to_meter_spec` below transcribes the claim's own
case distinction. -/
def unit_to_meter_spec (grid : String) : ℚ :=
  if grid = "mercator" then 1
  else if grid = "geodetic" then 111319.4907932732
  else 1

theorem c8_scale_denominator (grid : String) (pixel_size : ℚ) (hpx : 0 < pixel_size) :
    _scale grid pixel_size 1 = unit_to_meter_spec grid * pixel_size / (28 / 100000) := by
  have h28 : OUT_PIXEL_SIZE = 28 / 100000 := by norm_num [OUT_PIXEL_SIZE]
  unfold _scale unit_to_meter_spec UNIT_TO_METER
  by_cases h1 : grid = "mercator"
  · subst h1
    simp [List.lookup, h28]
  · by_cases h2 : grid = "geodetic"
    · subst h2
      simp [List.lookup, h28]
    · have hb1 : (grid == "mercator") = false := beq_eq_false_iff_ne.mpr h1
      have hb2 : (grid == "geodetic") = false := beq_eq_false_iff_ne.mpr h2
      simp [List.lookup, hb1, hb2, h1, h2, h28]

theorem c8_scale_denominator_witness :
    (0 : ℚ) < 1 ∧ _scale "geodetic" 1 1 = unit_to_meter_spec "geodetic" * 1 / (28 / 100000) :=
  ⟨by norm_num, c8_scale_denominator "geodetic" 1 (by norm_num)⟩

/-- C9: `BoundingBox.from_bounds` puts `[left, top]` into `upperCorner`
and `[right, bottom]` into `lowerCorner` (so the lower corner carries the
maximal x coordinate and the upper corner the minimal one), and fails
with an error when the bounds carry no CRS. -/
theorem c9_bounding_box_corners (b : Bounds) :
    (∀ c, b.crs = some c →
      BoundingBox.from_bounds b =
        .ok { crs := crs_to_uri c 0
              upperCorner := [b.left, b.top]
              lowerCorner := [b.right, b.bottom] }) ∧
    (b.crs = none → BoundingBox.from_bounds b = .error "bounds.crs must be set") := by
  constructor
  · intro c hc
    simp [BoundingBox.from_bounds, hc]
  · intro hc
    simp [BoundingBox.from_bounds, hc]

theorem c9_bounding_box_corners_witness :
    BoundingBox.from_bounds
        { left := 0, bottom := 1, right := 2, top := 3, crs := some epsg4326 } =
      .ok { crs := crs_to_uri epsg4326 0, upperCorner := [0, 3], lowerCorner := [2, 1] } :=
  (c9_bounding_box_corners _).1 epsg4326 rfl

/-- C4: whatever override bounds an item carries and whatever the
reprojection returns, the effective bounds of `_stacta_bounds` are
clamped componentwise to the pyramid's own bounds: they never extend
beyond the pyramid's extent on the left, bottom, right or top side. -/
theorem c4_bounds_clamping (R : Reproject) (s : STACTA) :
    s.tile_pyramid.grid.left ≤ (s.stacta_bounds R).left ∧
    s.tile_pyramid.grid.bottom ≤ (s.stacta_bounds R).bottom ∧
    (s.stacta_bounds R).right ≤ s.tile_pyramid.grid.right ∧
    (s.stacta_bounds R).top ≤ s.tile_pyramid.grid.top := by
  unfold STACTA.stacta_bounds
  refine ⟨?_, ?_, ?_, ?_⟩ <;> dsimp only <;> split <;> first | rfl | (rename_i h; push_neg at h; linarith)

/-- C10: `to_asset` pops `type` and `href` out of the stored
`asset_kwargs` in place, so on a `TiledAsset` whose kwargs contain both
keys the first call succeeds while a second call on the resulting state
raises a `KeyError` for `type` instead of returning the asset again. -/
theorem c10_to_asset_destructive (ta : TiledAsset) (item_href : String)
    (asset_name : Option String) (mt hv : String)
    (hnodup : (ta.asset_kwargs.map Prod.fst).Nodup)
    (htype : dict_lookup "type" ta.asset_kwargs = some mt)
    (hhref : dict_lookup "href" ta.asset_kwargs = some hv) :
    ∃ a ta', ta.to_asset item_href asset_name = .ok (a, ta') ∧
      ta'.to_asset item_href asset_name = .error "KeyError: type" := by
  have h1 : dict_lookup "href"
      (dict_insert (dict_remove "type" ta.asset_kwargs) "media_type" mt) = some hv := by
    rw [dict_lookup_insert_ne _ _ (by decide), dict_lookup_remove_ne _ _ (by decide), hhref]
  have h2 : dict_lookup "type"
      (dict_remove "href" (dict_insert (dict_remove "type" ta.asset_kwargs) "media_type" mt)) =
      none := by
    rw [dict_lookup_remove_ne _ _ (by decide), dict_lookup_insert_ne _ _ (by decide)]
    exact dict_lookup_remove_self _ _ hnodup
  refine ⟨⟨"STACTA:" ++ item_href ++ ":" ++ (asset_name.getD ta.name) ++ ":"
            ++ ta.tile_matrix_set.identifier,
           dict_remove "href" (dict_insert (dict_remove "type" ta.asset_kwargs) "media_type" mt)⟩,
          { ta with asset_kwargs :=
              dict_remove "href" (dict_insert (dict_remove "type" ta.asset_kwargs) "media_type" mt) },
          ?_, ?_⟩
  · simp only [TiledAsset.to_asset, dict_pop, htype, h1]
  · simp only [TiledAsset.to_asset, dict_pop, h2]
    rfl

theorem c10_to_asset_destructive_witness :
    ∃ a ta',
      TiledAsset.to_asset
          { name := "bands"
            tile_matrix_set :=
              TileMatrixSet.from_tile_pyramid { grid := geodeticGrid } [0]
            asset_kwargs := [("type", "image/tiff"), ("href", "t.tif")] }
          "foo.json" none = .ok (a, ta') ∧
      ta'.to_asset "foo.json" none = .error "KeyError: type" :=
  c10_to_asset_destructive _ _ _ "image/tiff" "t.tif" (by decide) rfl rfl

/-! Helper lemmas for the metatiling search of `to_tile_pyramid`. -/

lemma foldl_min_eq {l : List ℕ} {a m : ℕ} (hmem : m = a ∨ m ∈ l) (ha : m ≤ a)
    (hl : ∀ x ∈ l, m ≤ x) : l.foldl Nat.min a = m := by
  induction l generalizing a with
  | nil =>
    rcases hmem with h | h
    · simpa using h.symm
    · cases h
  | cons x xs ih =>
    simp only [List.foldl_cons]
    apply ih
    · rcases hmem with h | h
      · left
        subst h
        exact (Nat.min_eq_left (hl x (by simp))).symm
      · rcases List.mem_cons.mp h with h | h
        · left
          subst h
          exact (Nat.min_eq_right ha).symm
        · right
          exact h
    · exact Nat.le_min.mpr ⟨ha, hl x (by simp)⟩
    · intro y hy
      exact hl y (by simp [hy])

lemma candidate_matches_iff (tms : TileMatrixSet) (grid : Grid) (m : ℕ) :
    candidate_matches tms grid m = true ↔
      ∀ t ∈ tms.tileMatrix,
        t.matrixWidth =
            BufferedTilePyramid.matrix_width { grid := grid, metatiling := m } t.identifier ∧
        t.matrixHeight =
            BufferedTilePyramid.matrix_height { grid := grid, metatiling := m } t.identifier ∧
        t.tileWidth =
            BufferedTilePyramid.tile_width { grid := grid, metatiling := m } t.identifier ∧
        t.tileHeight =
            BufferedTilePyramid.tile_height { grid := grid, metatiling := m } t.identifier := by
  simp [candidate_matches, List.all_eq_true, Bool.and_eq_true, beq_iff_eq, and_assoc]

lemma from_tp_geodetic (m : ℕ) (zl : List ℕ) :
    TileMatrixSet.from_tile_pyramid { grid := geodeticGrid, metatiling := m } zl =
      { identifier := "WorldCRS84Quad"
        title := some "CRS84 for the World"
        supportedCRS := "http://www.opengis.net/def/crs/OGC/1.3/CRS84"
        url := some "http://schemas.opengis.net/tms/1.0/json/examples/WorldCRS84Quad.json"
        wellKnownScaleSet := some "http://www.opengis.net/def/wkss/OGC/1.0/GoogleCRS84Quad"
        boundingBox := pyramid_bounding_box { grid := geodeticGrid, metatiling := m }
        tileMatrix :=
          zl.map (tile_matrix_entry { grid := geodeticGrid, metatiling := m } "geodetic") } :=
  rfl

lemma candidate_matches_geodetic_self (m : ℕ) (zl : List ℕ) :
    candidate_matches
      (TileMatrixSet.from_tile_pyramid { grid := geodeticGrid, metatiling := m } zl)
      geodeticGrid m = true := by
  rw [from_tp_geodetic, candidate_matches_iff]
  intro t ht
  simp only [List.mem_map] at ht
  obtain ⟨z, hz, rfl⟩ := ht
  exact ⟨rfl, rfl, rfl, rfl⟩

lemma geodetic_tile_width_ne {m m' z : ℕ} (hm : m ≤ 2 * 2 ^ z) (hlt : m' < m) :
    BufferedTilePyramid.tile_width { grid := geodeticGrid, metatiling := m' } z ≠
      BufferedTilePyramid.tile_width { grid := geodeticGrid, metatiling := m } z := by
  show min (256 * m') (2 ^ z * 256 * 2) ≠ min (256 * m) (2 ^ z * 256 * 2)
  have hK : ∃ K, 2 ^ z = K := ⟨_, rfl⟩
  obtain ⟨K, hK⟩ := hK
  rw [hK]
  rw [hK] at hm
  omega

lemma candidate_matches_geodetic_smaller_false (m m' : ℕ) (zl : List ℕ) (z : ℕ)
    (hz : z ∈ zl) (hm : m ≤ 2 * 2 ^ z) (hlt : m' < m) :
    candidate_matches
      (TileMatrixSet.from_tile_pyramid { grid := geodeticGrid, metatiling := m } zl)
      geodeticGrid m' = false := by
  rw [Bool.eq_false_iff]
  intro h
  rw [candidate_matches_iff] at h
  have hmem : tile_matrix_entry { grid := geodeticGrid, metatiling := m } "geodetic" z ∈
      (TileMatrixSet.from_tile_pyramid { grid := geodeticGrid, metatiling := m } zl).tileMatrix := by
    rw [from_tp_geodetic]
    exact List.mem_map_of_mem _ hz
  have heq := (h _ hmem).2.2.1
  exact geodetic_tile_width_ne hm hlt heq.symm

/-- C2: for every `TileMatrixSet` whose well-known scale set maps to a
known grid type, `to_tile_pyramid` tests exactly the ten power-of-two
candidates `1, 2, 4, ..., 512`; a candidate is kept iff every
`TileMatrix` entry's `(matrixWidth, matrixHeight, tileWidth, tileHeight)`
equals the trial pyramid's values at that entry's zoom; the result is an
error exactly when no candidate matches, and otherwise the smallest
matching candidate, with the non-fatal ambiguity warning raised exactly
when several candidates matched. -/
theorem c2_metatiling_inference (tms : TileMatrixSet) (grid : Grid)
    (hw : wkss_grid tms.wellKnownScaleSet = some grid) :
    metatiling_opts = [1, 2, 4, 8, 16, 32, 64, 128, 256, 512] ∧
    (∀ m, candidate_matches tms grid m = true ↔
      ∀ t ∈ tms.tileMatrix,
        t.matrixWidth =
            BufferedTilePyramid.matrix_width { grid := grid, metatiling := m } t.identifier ∧
        t.matrixHeight =
            BufferedTilePyramid.matrix_height { grid := grid, metatiling := m } t.identifier ∧
        t.tileWidth =
            BufferedTilePyramid.tile_width { grid := grid, metatiling := m } t.identifier ∧
        t.tileHeight =
            BufferedTilePyramid.tile_height { grid := grid, metatiling := m } t.identifier) ∧
    (metatiling_opts.filter (candidate_matches tms grid) = [] →
      tms.to_tile_pyramid = .error "cannot determine metatiling setting") ∧
    (∀ m, m ∈ metatiling_opts.filter (candidate_matches tms grid) →
      (∀ x ∈ metatiling_opts.filter (candidate_matches tms grid), m ≤ x) →
      tms.to_tile_pyramid =
        .ok ({ grid := grid, metatiling := m },
          decide (1 < (metatiling_opts.filter (candidate_matches tms grid)).length))) := by
  refine ⟨by decide, fun m => candidate_matches_iff tms grid m, ?_, ?_⟩
  · intro hnil
    simp only [TileMatrixSet.to_tile_pyramid, hw, hnil]
  · intro m hm hlb
    rcases hfil : metatiling_opts.filter (candidate_matches tms grid) with _ | ⟨m0, rest⟩
    · rw [hfil] at hm
      cases hm
    · rw [hfil] at hm hlb
      have hfold : rest.foldl Nat.min m0 = m := by
        apply foldl_min_eq
        · rcases List.mem_cons.mp hm with h | h
          · exact Or.inl h
          · exact Or.inr h
        · exact hlb m0 (by simp)
        · intro y hy
          exact hlb y (by simp [hy])
      have hwarn : (!rest.isEmpty) = decide (1 < (m0 :: rest).length) := by
        cases rest <;> simp
      simp only [TileMatrixSet.to_tile_pyramid, hw, hfil, hfold, hwarn]

theorem c2_metatiling_inference_witness :
    wkss_grid (TileMatrixSet.from_tile_pyramid { grid := geodeticGrid } [3]).wellKnownScaleSet =
        some geodeticGrid ∧
    (TileMatrixSet.from_tile_pyramid { grid := geodeticGrid } [3]).to_tile_pyramid =
      .ok ({ grid := geodeticGrid, metatiling := 1 },
        decide (1 < (metatiling_opts.filter
          (candidate_matches (TileMatrixSet.from_tile_pyramid { grid := geodeticGrid } [3])
            geodeticGrid)).length)) :=
  ⟨rfl,
    (c2_metatiling_inference (TileMatrixSet.from_tile_pyramid { grid := geodeticGrid } [3])
      geodeticGrid rfl).2.2.2 1 (by decide) (by decide)⟩

/-- C1 counterexample: for the geodetic pyramid with metatiling 4 and the
non-empty zoom-level set `[0]`, the round trip returns metatiling 2 (all
candidates from 2 upwards match at zoom 0, so the ambiguity policy picks
the smallest), not the original 4 — the claim fails for this input. -/
theorem c1_counterexample :
    Except.map (fun p => (p.1.grid.type, p.1.metatiling))
      (TileMatrixSet.from_tile_pyramid
        { grid := geodeticGrid, metatiling := 4 } [0]).to_tile_pyramid =
      .ok ("geodetic", 2) := by
  rfl

/-- C1 amended: for every geodetic pyramid with metatiling in
`{1, 2, 4, 8, 16, 64}` and every zoom-level set containing some zoom `z`
with `metatiling ≤ 2 * 2 ^ z` (so that the requested zooms pin the
metatiling down; the bare claim fails for e.g. metatiling 4 with zooms
`[0]`), `to_tile_pyramid` of `from_tile_pyramid` reproduces the original
grid type and metatiling. -/
theorem c1_round_trip_amended (m : ℕ) (zl : List ℕ) (hm : m ∈ [1, 2, 4, 8, 16, 64])
    (hz : ∃ z ∈ zl, m ≤ 2 * 2 ^ z) :
    ∃ tp w,
      (TileMatrixSet.from_tile_pyramid
          { grid := geodeticGrid, metatiling := m } zl).to_tile_pyramid = .ok (tp, w) ∧
      tp.grid.type = "geodetic" ∧ tp.metatiling = m := by
  obtain ⟨z, hzl, hmz⟩ := hz
  have hopts : m ∈ metatiling_opts := by
    fin_cases hm <;> decide
  have hself := candidate_matches_geodetic_self m zl
  have hmem : m ∈ metatiling_opts.filter
      (candidate_matches
        (TileMatrixSet.from_tile_pyramid { grid := geodeticGrid, metatiling := m } zl)
        geodeticGrid) :=
    List.mem_filter.mpr ⟨hopts, hself⟩
  have hlb : ∀ x ∈ metatiling_opts.filter
      (candidate_matches
        (TileMatrixSet.from_tile_pyramid { grid := geodeticGrid, metatiling := m } zl)
        geodeticGrid), m ≤ x := by
    intro x hx
    rcases List.mem_filter.mp hx with ⟨-, hxm⟩
    by_contra hlt
    push_neg at hlt
    have hfalse := candidate_matches_geodetic_smaller_false m x zl z hzl hmz hlt
    rw [hfalse] at hxm
    cases hxm
  have hwk : wkss_grid
      (TileMatrixSet.from_tile_pyramid
        { grid := geodeticGrid, metatiling := m } zl).wellKnownScaleSet =
      some geodeticGrid := by
    rw [from_tp_geodetic]
    rfl
  rcases hfil : metatiling_opts.filter
      (candidate_matches
        (TileMatrixSet.from_tile_pyramid { grid := geodeticGrid, metatiling := m } zl)
        geodeticGrid) with _ | ⟨m0, rest⟩
  · rw [hfil] at hmem
    cases hmem
  · rw [hfil] at hmem hlb
    have hfold : rest.foldl Nat.min m0 = m := by
      apply foldl_min_eq
      · rcases List.mem_cons.mp hmem with h | h
        · exact Or.inl h
        · exact Or.inr h
      · exact hlb m0 (by simp)
      · intro y hy
        exact hlb y (by simp [hy])
    refine ⟨{ grid := geodeticGrid, metatiling := m }, !rest.isEmpty, ?_, rfl, rfl⟩
    simp only [TileMatrixSet.to_tile_pyramid, hwk, hfil, hfold]

theorem c1_round_trip_amended_witness :
    (64 ∈ [1, 2, 4, 8, 16, 64] ∧ ∃ z ∈ [0, 1, 2, 3, 4, 5], 64 ≤ 2 * 2 ^ z) ∧
    ∃ tp w,
      (TileMatrixSet.from_tile_pyramid
          { grid := geodeticGrid, metatiling := 64 } [0, 1, 2, 3, 4, 5]).to_tile_pyramid =
        .ok (tp, w) ∧ tp.grid.type = "geodetic" ∧ tp.metatiling = 64 :=
  ⟨⟨by decide, ⟨5, by decide, by decide⟩⟩,
    c1_round_trip_amended 64 [0, 1, 2, 3, 4, 5] (by decide) ⟨5, by decide, by decide⟩⟩

/-- C3: `from_tile_pyramid` dispatches on the grid type — geodetic gets
identifier `WorldCRS84Quad` with the CRS84 URI and the `GoogleCRS84Quad`
well-known-scale-set URL, mercator gets `WebMercatorQuad` with the
EPSG:3857 URI and `GoogleMapsCompatible`, anything else gets `custom`
with a CRS URN and no well-known scale set; the tileMatrix list has
exactly one entry per requested zoom, each taking its tile and matrix
dimensions from the pyramid's own per-zoom functions; and for a geodetic
pyramid with zoom levels 0 through 6 there are exactly 7 entries. -/
theorem c3_builder_dispatch :
    (∀ (tp : BufferedTilePyramid) (zl : List ℕ),
      (tp.grid.type = "geodetic" →
        (TileMatrixSet.from_tile_pyramid tp zl).identifier = "WorldCRS84Quad" ∧
        (TileMatrixSet.from_tile_pyramid tp zl).supportedCRS =
          "http://www.opengis.net/def/crs/OGC/1.3/CRS84" ∧
        (TileMatrixSet.from_tile_pyramid tp zl).wellKnownScaleSet =
          some "http://www.opengis.net/def/wkss/OGC/1.0/GoogleCRS84Quad") ∧
      (tp.grid.type = "mercator" →
        (TileMatrixSet.from_tile_pyramid tp zl).identifier = "WebMercatorQuad" ∧
        (TileMatrixSet.from_tile_pyramid tp zl).supportedCRS =
          "http://www.opengis.net/def/crs/EPSG/0/3857" ∧
        (TileMatrixSet.from_tile_pyramid tp zl).wellKnownScaleSet =
          some "http://www.opengis.net/def/wkss/OGC/1.0/GoogleMapsCompatible") ∧
      (tp.grid.type ≠ "geodetic" → tp.grid.type ≠ "mercator" →
        (TileMatrixSet.from_tile_pyramid tp zl).identifier = "custom" ∧
        (TileMatrixSet.from_tile_pyramid tp zl).supportedCRS = crs_to_urn tp.grid.crs ∧
        (TileMatrixSet.from_tile_pyramid tp zl).wellKnownScaleSet = none) ∧
      (TileMatrixSet.from_tile_pyramid tp zl).tileMatrix.map (fun t =>
          (t.identifier, t.tileWidth, t.tileHeight, t.matrixWidth, t.matrixHeight)) =
        zl.map fun z =>
          (z, tp.tile_width z, tp.tile_height z, tp.matrix_width z, tp.matrix_height z)) ∧
    (TileMatrixSet.from_tile_pyramid { grid := geodeticGrid }
        [0, 1, 2, 3, 4, 5, 6]).identifier = "WorldCRS84Quad" ∧
    (TileMatrixSet.from_tile_pyramid { grid := geodeticGrid }
        [0, 1, 2, 3, 4, 5, 6]).tileMatrix.length = 7 := by
  refine ⟨?_, rfl, rfl⟩
  intro tp zl
  unfold TileMatrixSet.from_tile_pyramid
  by_cases h1 : tp.grid.type = "geodetic"
  · rw [if_pos h1]
    exact ⟨fun _ => ⟨rfl, rfl, rfl⟩,
           fun h2 => absurd (h1.symm.trans h2) (by decide),
           fun hn _ => absurd h1 hn,
           by rw [List.map_map]; rfl⟩
  · rw [if_neg h1]
    by_cases h2 : tp.grid.type = "mercator"
    · rw [if_pos h2]
      exact ⟨fun hg => absurd hg h1,
             fun _ => ⟨rfl, rfl, rfl⟩,
             fun _ hn => absurd h2 hn,
             by rw [List.map_map]; rfl⟩
    · rw [if_neg h2]
      exact ⟨fun hg => absurd hg h1,
             fun hg => absurd hg h2,
             fun _ _ => ⟨rfl, rfl, rfl⟩,
             by rw [List.map_map]; rfl⟩

theorem c3_builder_dispatch_witness :
    (TileMatrixSet.from_tile_pyramid { grid := mercatorGrid } [0]).identifier =
        "WebMercatorQuad" ∧
    (TileMatrixSet.from_tile_pyramid { grid := mercatorGrid } [0]).supportedCRS =
        "http://www.opengis.net/def/crs/EPSG/0/3857" ∧
    (TileMatrixSet.from_tile_pyramid { grid := mercatorGrid } [0]).wellKnownScaleSet =
        some "http://www.opengis.net/def/wkss/OGC/1.0/GoogleMapsCompatible" :=
  (c3_builder_dispatch.1 { grid := mercatorGrid } [0]).2.1 rfl

/-- C5 counterexample: item equality is dataclass field equality, not
canonical-document equality.  Two items over the same geodetic pyramid,
one without override bounds and one whose override bounds equal the
pyramid bounds, produce byte-identical computed documents (here with the
identity reprojection and a fixed timestamp) while comparing unequal —
so "equal iff the computed canonical documents are identical" fails. -/
theorem c5_counterexample :
    ({ id := "foo", tile_pyramid := { grid := geodeticGrid }, zoom_levels := [0] } : STACTA) ≠
      ({ id := "foo", tile_pyramid := { grid := geodeticGrid }, zoom_levels := [0]
         bounds := some { left := -180, bottom := -90, right := 180, top := 90 } } : STACTA) ∧
    STACTA.to_item_dict
        (fun b _ => { left := b.left, bottom := b.bottom, right := b.right, top := b.top })
        "2021-01-01 00:00:00"
        { id := "foo", tile_pyramid := { grid := geodeticGrid }, zoom_levels := [0] } =
      STACTA.to_item_dict
        (fun b _ => { left := b.left, bottom := b.bottom, right := b.right, top := b.top })
        "2021-01-01 00:00:00"
        { id := "foo", tile_pyramid := { grid := geodeticGrid }, zoom_levels := [0]
          bounds := some { left := -180, bottom := -90, right := 180, top := 90 } } := by
  constructor
  · intro h
    have := congrArg STACTA.bounds h
    simp at this
  · rfl

/-- C5 amended: `STACTA` equality is structural equality of the stored
dataclass fields (so two items built from identical construction
arguments are equal, and item equality implies identical computed
documents at any fixed evaluation time); extending an item with
additional zoom levels makes it unequal to the original; but identical
computed documents do not imply item equality (see the counterexample). -/
theorem c5_item_equality_amended :
    (∀ a b : STACTA, a = b ↔
      (a.id = b.id ∧ a.tile_pyramid = b.tile_pyramid ∧ a.zoom_levels = b.zoom_levels ∧
       a.stac_version = b.stac_version ∧ a.assets = b.assets ∧ a.bounds = b.bounds ∧
       a.item_metadata = b.item_metadata ∧ a.asset_template = b.asset_template ∧
       a.mime_type = b.mime_type ∧ a.asset_template_name = b.asset_template_name)) ∧
    (∀ (R : Reproject) (now : String) (a b : STACTA), a = b →
      STACTA.to_item_dict R now a = STACTA.to_item_dict R now b) ∧
    (∀ (s : STACTA) (zl : List ℕ), (∃ z ∈ zl, z ∉ s.zoom_levels) →
      s.extend (some zl) none ≠ s) := by
  refine ⟨?_, ?_, ?_⟩
  · intro a b
    cases a
    cases b
    simp [STACTA.mk.injEq]
  · intro R now a b h
    rw [h]
  · rintro s zl ⟨z, hzm, hzn⟩ h
    have hne : zl.isEmpty = false := by
      cases zl
      · cases hzm
      · rfl
    have hzl := congrArg STACTA.zoom_levels h
    simp only [STACTA.extend, hne, Bool.false_eq_true, if_false] at hzl
    have hzf : z ∈ zl.filter fun x => !s.zoom_levels.contains x := by
      rw [List.mem_filter]
      refine ⟨hzm, ?_⟩
      simp only [Bool.not_eq_true', ← Bool.not_eq_true]
      intro hc
      exact hzn (List.mem_of_elem_eq_true hc)
    have hlen := congrArg List.length hzl
    rw [zoom_levels_union, List.length_append] at hlen
    have hpos : 0 < (zl.filter fun x => !s.zoom_levels.contains x).length :=
      List.length_pos.mpr (List.ne_nil_of_mem hzf)
    omega

theorem c5_item_equality_amended_witness :
    STACTA.extend
        { id := "foo", tile_pyramid := { grid := geodeticGrid }, zoom_levels := [0] }
        (some [1]) none ≠
      { id := "foo", tile_pyramid := { grid := geodeticGrid }, zoom_levels := [0] } :=
  c5_item_equality_amended.2.2 _ [1] ⟨1, by decide, by decide⟩

/-- C6: calling `extend` with zoom levels that are a subset of the
item's existing zoom levels and with bounds already covered by the
item's stored override bounds leaves the stored fields — and hence the
computed document, at any fixed evaluation time — identical. -/
theorem c6_extend_idempotent (R : Reproject) (now : String) (s : STACTA)
    (zl : List ℕ) (b bd : Bounds) (hz : ∀ z ∈ zl, z ∈ s.zoom_levels)
    (hb : s.bounds = some bd) (hcov : bd.union b = bd) :
    STACTA.to_item_dict R now (s.extend (some zl) (some b)) =
      STACTA.to_item_dict R now s := by
  have hu : zoom_levels_union s.zoom_levels zl = s.zoom_levels := by
    have hflt : (zl.filter fun z => !s.zoom_levels.contains z) = [] := by
      rw [List.filter_eq_nil_iff]
      intro z hzz
      have hc : s.zoom_levels.contains z = true := List.elem_eq_true_of_mem (hz z hzz)
      simp [hc]
      exact hz z hzz
    rw [zoom_levels_union, hflt, List.append_nil]
  have hs1 : (if zl.isEmpty then s
      else { s with zoom_levels := zoom_levels_union s.zoom_levels zl }) = s := by
    split
    · rfl
    · rw [hu]
  have hext : s.extend (some zl) (some b) = s := by
    have step1 : s.extend (some zl) (some b) =
        (if zl.isEmpty then s
          else { s with zoom_levels := zoom_levels_union s.zoom_levels zl }).extend
          none (some b) := rfl
    rw [step1, hs1]
    show (match s.bounds with
      | none => { s with bounds := some b }
      | some old => { s with bounds := some (old.union b) }) = s
    rw [hb]
    show { s with bounds := some (bd.union b) } = s
    rw [hcov, ← hb]
  rw [hext]

theorem c6_extend_idempotent_witness :
    (∀ z ∈ [0], z ∈ [0, 1]) ∧
    Bounds.union { left := -180, bottom := -90, right := 180, top := 90 }
        { left := 0, bottom := 0, right := 1, top := 1 } =
      { left := -180, bottom := -90, right := 180, top := 90 } ∧
    STACTA.to_item_dict
        (fun b _ => { left := b.left, bottom := b.bottom, right := b.right, top := b.top })
        "2021-01-01 00:00:00"
        (STACTA.extend
          { id := "bar", tile_pyramid := { grid := geodeticGrid }, zoom_levels := [0, 1]
            bounds := some { left := -180, bottom := -90, right := 180, top := 90 } }
          (some [0]) (some { left := 0, bottom := 0, right := 1, top := 1 })) =
      STACTA.to_item_dict
        (fun b _ => { left := b.left, bottom := b.bottom, right := b.right, top := b.top })
        "2021-01-01 00:00:00"
        { id := "bar", tile_pyramid := { grid := geodeticGrid }, zoom_levels := [0, 1]
          bounds := some { left := -180, bottom := -90, right := 180, top := 90 } } :=
  ⟨by decide, by decide,
    c6_extend_idempotent _ _ _ _ _ _ (by decide) rfl (by decide)⟩

/-- C7 counterexample: a persisted item carrying every mandatory field —
a non-empty `tiles:tile_matrix_sets` mapping, a `bbox` and a non-empty
`asset_templates` mapping — still fails in `from_item` when the first
tile-matrix-set has no known well-known scale set, so "otherwise
succeeds" does not hold as claimed. -/
theorem c7_counterexample :
    STACTA.from_item
        { id := "foo"
          tile_matrix_sets := some [("custom",
            { identifier := "custom"
              supportedCRS := "urn:ogc:def:crs:EPSG::32630"
              tileMatrix := []
              boundingBox := { crs := "c", lowerCorner := [1, 0], upperCorner := [0, 1] } })]
          bbox := some { left := 0, bottom := 0, right := 1, top := 1 }
          asset_templates := [("bands", { href := "t.tif", type := "image/tiff" })] } =
      .error (.valueError "cannot create tile pyramid from unknown scale set") :=
  rfl

/-- C7 amended: `from_item` fails with a `ValueError` when the
`tiles:tile_matrix_sets` mapping is present but empty, when the first
entry cannot be inverted to a pyramid (unknown well-known scale set or
undeterminable metatiling), when `bbox` is missing, or when
`asset_templates` is empty; a document whose properties lack the
`tiles:tile_matrix_sets` key entirely crashes with an `AttributeError`
instead of a validation error; and otherwise it succeeds using the first
tile-matrix-set entry and the first asset-template entry. -/
theorem c7_from_item_amended (item : ParsedItem) :
    (item.tile_matrix_sets = none →
      STACTA.from_item item = .error (.attributeError "list object has no attribute values")) ∧
    (item.tile_matrix_sets = some [] →
      STACTA.from_item item =
        .error (.valueError "no tiles:tile_matrix_sets found in STAC item")) ∧
    (∀ nm tms rest, item.tile_matrix_sets = some ((nm, tms) :: rest) →
      (∀ e, tms.to_tile_pyramid = .error e →
        STACTA.from_item item = .error (.valueError e)) ∧
      (∀ tp w, tms.to_tile_pyramid = .ok (tp, w) →
        (item.bbox = none →
          STACTA.from_item item = .error (.valueError "STAC Item has no bbox")) ∧
        (∀ bb, item.bbox = some bb →
          (item.asset_templates = [] →
            STACTA.from_item item =
              .error (.valueError "no asset_templates found in STAC item")) ∧
          (∀ anm av arest, item.asset_templates = (anm, av) :: arest →
            STACTA.from_item item =
              .ok { id := item.id
                    tile_pyramid := tp
                    zoom_levels := tms.to_zoom_levels
                    stac_version := get_stac_version
                    assets := item.assets
                    bounds := some bb
                    item_metadata := item.item_metadata
                    asset_template := av.href
                    mime_type := av.type
                    asset_template_name := anm })))) := by
  refine ⟨?_, ?_, ?_⟩
  · intro h
    simp only [STACTA.from_item, h]
  · intro h
    simp only [STACTA.from_item, h]
  · intro nm tms rest hsets
    refine ⟨?_, ?_⟩
    · intro e he
      simp only [STACTA.from_item, hsets, he]
    · intro tp w htp
      refine ⟨?_, ?_⟩
      · intro hbb
        simp only [STACTA.from_item, hsets, htp, hbb]
      · intro bb hbb
        refine ⟨?_, ?_⟩
        · intro hat
          simp only [STACTA.from_item, hsets, htp, hbb, hat]
        · intro anm av arest hat
          simp only [STACTA.from_item, hsets, htp, hbb, hat]

theorem c7_from_item_amended_witness :
    STACTA.from_item
        { id := "ok"
          tile_matrix_sets :=
            some [("WorldCRS84Quad", TileMatrixSet.from_tile_pyramid { grid := geodeticGrid } [0])]
          bbox := some { left := -180, bottom := -90, right := 180, top := 90 }
          asset_templates := [("bands", { href := "t.tif", type := "image/tiff" })] } =
      .ok { id := "ok"
            tile_pyramid := { grid := geodeticGrid }
            zoom_levels :=
              (TileMatrixSet.from_tile_pyramid { grid := geodeticGrid } [0]).to_zoom_levels
            stac_version := get_stac_version
            assets := []
            bounds := some { left := -180, bottom := -90, right := 180, top := 90 }
            item_metadata := {}
            asset_template := "t.tif"
            mime_type := "image/tiff"
            asset_template_name := "bands" } :=
  ((((c7_from_item_amended _).2.2 "WorldCRS84Quad"
      (TileMatrixSet.from_tile_pyramid { grid := geodeticGrid } [0]) [] rfl).2
      { grid := geodeticGrid } false rfl).2
      { left := -180, bottom := -90, right := 180, top := 90 } rfl).2
      "bands" { href := "t.tif", type := "image/tiff" } [] rfl

end Mapchete
